import Mathlib

/-! Shallow embedding of the iPad catalog backend (`main.py`): the document
model, output serialization, the list-endpoint filter construction with a
fragment of the store's filter semantics, the compare handler with its
scoring heuristic, and the seed handler.  Numeric arithmetic is modelled
over exact rationals.
-/

namespace IpadApi

/-- A store identifier (bson `ObjectId`), modelled by its 24-hex-character
string form; `str(oid)` in Python yields exactly this string. -/
structure ObjectId where
  hex : String
deriving DecidableEq, Repr

/-- Values that occur in stored catalog documents: identifiers, strings,
numbers (exact rationals), booleans, and flat arrays of numbers or strings. -/
inductive BVal where
  | oid : ObjectId → BVal
  | str : String → BVal
  | num : ℚ → BVal
  | bool : Bool → BVal
  | numArr : List ℚ → BVal
  | strArr : List String → BVal
deriving DecidableEq, Repr

/-- A document is a Python dict: an insertion-ordered association list with
(at most) one binding per key. -/
abbrev Doc := List (String × BVal)

/-- Python `str(...)` of a stored value.  Exact for identifiers and strings,
the only cases that reach it in `serialize_doc` (the `_id` of a stored
document is an `ObjectId`); the remaining cases are given a total rendering. -/
def bstr : BVal → String
  | BVal.oid o => o.hex
  | BVal.str s => s
  | BVal.num q => toString q
  | BVal.bool b => if b then "True" else "False"
  | BVal.numArr l => toString l
  | BVal.strArr l => toString l

/-- Python `d[k] = v` on a dict: overwrite in place if the key is present
(insertion order is kept), otherwise append the new binding. -/
def dictSet (d : Doc) (k : String) (v : BVal) : Doc :=
  if (List.lookup k d).isSome then
    d.map (fun kv => if kv.1 = k then (k, v) else kv)
  else
    d ++ [(k, v)]

/-- Python `d.pop(k)` (the remaining dict): all bindings except the key. -/
def dictErase (d : Doc) (k : String) : Doc :=
  d.filter (fun kv => kv.1 != k)

/-- The body of the final loop of `serialize_doc`: an `ObjectId` value is
replaced by its string form, every other value is left unchanged. -/
def stringifyOid : BVal → BVal
  | BVal.oid o => BVal.str o.hex
  | v => v

/-- Embedding of `serialize_doc` (main.py lines 22-33): an empty document is returned
as-is; otherwise `_id`, when present, is popped and re-added at the end as
the string field `id`; finally every remaining `ObjectId` value is
stringified in place. -/
def serialize_doc (doc : Doc) : Doc :=
  if List.isEmpty doc then doc
  else
    let d := match List.lookup "_id" doc with
      | some v => dictSet (dictErase doc "_id") "id" (BVal.str (bstr v))
      | none => doc
    d.map (fun kv => (kv.1, stringifyOid kv.2))

/-- Python `str.upper()`, characterwise (ASCII fragment, which covers every
chip name in the catalog). -/
def py_upper (s : String) : String :=
  String.mk (s.data.map Char.toUpper)

/-- Python truthiness of `x.get(k)`: a missing key gives `None` (falsy);
`False`, `0`, `""` and empty lists are falsy, everything else truthy. -/
def truthy : Option BVal → Bool
  | none => false
  | some (BVal.oid _) => true
  | some (BVal.str s) => s != ""
  | some (BVal.num q) => q != 0
  | some (BVal.bool b) => b
  | some (BVal.numArr l) => !l.isEmpty
  | some (BVal.strArr l) => !l.isEmpty

/-- Python `x.get("chip", "")` in `compare_ipads.score`: a missing key defaults to
`""`; a non-string value would make the subsequent `.upper()` raise, which
is modelled as `none`. -/
def chipGet (x : Doc) : Option String :=
  match List.lookup "chip" x with
  | none => some ""
  | some (BVal.str s) => some s
  | some _ => none

/-- Python `float(x.get("display_size", 0))`: a missing key defaults to `0`; a
numeric value passes through; a value outside the modelled numeric fragment
is `none`. -/
def displayGet (x : Doc) : Option ℚ :=
  match List.lookup "display_size" x with
  | none => some 0
  | some (BVal.num q) => some q
  | some _ => none

/-- Python `len(x.get("storage_options", []))`: a missing key defaults to `[]`;
`len` applies to arrays and strings, and raises (modelled `none`) otherwise. -/
def storageGet (x : Doc) : Option ℕ :=
  match List.lookup "storage_options" x with
  | none => some 0
  | some (BVal.numArr l) => some l.length
  | some (BVal.strArr l) => some l.length
  | some (BVal.str s) => some s.length
  | some _ => none

/-- The chip tier table of `compare_ipads.score` together with Python's
`dict.get(key, 2)`: an absent key yields the default tier `2`. -/
def chip_score_get (k : String) : ℚ :=
  if k = "M4" then 5
  else if k = "M3" then 4.5
  else if k = "M2" then 4
  else if k = "M1" then 3.5
  else if k = "A15" then 3
  else if k = "A14" then 2.5
  else 2

/-- Embedding of `compare_ipads.score` (main.py lines 147-161) over exact rationals:
`base = chip_score.get(chip.upper(), 2) + float(display_size) * 0.2 +
(1 if cellular else 0) * 0.3 + len(storage_options) * 0.1`.  A raised
exception (field value outside the handled types) is modelled as `none`. -/
def score (x : Doc) : Option ℚ :=
  match chipGet x, displayGet x, storageGet x with
  | some chip, some ds, some nStorage =>
    some (chip_score_get (py_upper chip) + ds * 0.2 +
      (if truthy (List.lookup "cellular" x) then 1 else 0) * 0.3 +
      (nStorage : ℚ) * 0.1)
  | _, _, _ => none

/-- Embedding of main.py line 166: `"A" if a_score >= b_score else "B"`. -/
def recommendation (a_score b_score : ℚ) : String :=
  if a_score ≥ b_score then "A" else "B"

def isHexDigit (c : Char) : Bool :=
  c.isDigit || ('a' ≤ c && c ≤ 'f') || ('A' ≤ c && c ≤ 'F')

/-- Modelled from the library behind the source (bson, not under src/):
`ObjectId(s)` accepts exactly a 24-character hex string and raises
otherwise (`none`), the "valid identifier shape for the store" of the spec. -/
def parseObjectId (s : String) : Option ObjectId :=
  if s.length = 24 && s.data.all isHexDigit then some (ObjectId.mk s) else none

/-- Python truthiness of a fetched document (`not a_doc`): `None` and the
empty document are falsy. -/
def docTruthy : Option Doc → Bool
  | none => false
  | some d => !List.isEmpty d

/-- The success payload of the compare endpoint. -/
structure CompareResponse where
  a : Doc
  b : Doc
  a_score : ℚ
  b_score : ℚ
  recommended : String
deriving DecidableEq, Repr

/-- Embedding of `compare_ipads` (main.py lines 129-173).  The store handle is `none`
when unconfigured (500); `find_one` may itself fail (`Except.error ()`, a
store exception during the fetch), and the handler's `try/except` turns any
failure inside the block — malformed id or store exception — into the 400
"Invalid id format" response.  Missing (or falsy) documents give 404; a
scoring exception would surface as a generic 500. -/
def compare_ipads (db : Option (ObjectId → Except Unit (Option Doc)))
    (pa pb : String) : Except (ℕ × String) CompareResponse :=
  match db with
  | none => Except.error (500, "Database not configured")
  | some find_one =>
    match parseObjectId pa with
    | none => Except.error (400, "Invalid id format")
    | some oa =>
      match find_one oa with
      | Except.error _ => Except.error (400, "Invalid id format")
      | Except.ok a_doc =>
        match parseObjectId pb with
        | none => Except.error (400, "Invalid id format")
        | some ob =>
          match find_one ob with
          | Except.error _ => Except.error (400, "Invalid id format")
          | Except.ok b_doc =>
            if !docTruthy a_doc || !docTruthy b_doc then
              Except.error (404, "One or both models not found")
            else
              let a := serialize_doc (a_doc.getD [])
              let b := serialize_doc (b_doc.getD [])
              match score a, score b with
              | some a_score, some b_score =>
                Except.ok (CompareResponse.mk a b a_score b_score
                  (recommendation a_score b_score))
              | _, _ => Except.error (500, "Internal Server Error")

/-- One pattern character of a `$regex` match with `$options: "i"` against
one subject character.  This models the store's regex engine on the fragment
of patterns whose only metacharacter is `.` (which matches any character);
a plain character matches case-insensitively. -/
def regexCharMatch (p c : Char) : Bool :=
  p == '.' || p.toLower == c.toLower

/-- Whether the pattern matches a prefix of the subject (fragment of the
store's regex engine, see `regexCharMatch`). -/
def regexMatchHere : List Char → List Char → Bool
  | [], _ => true
  | _ :: _, [] => false
  | p :: ps, c :: cs => regexCharMatch p c && regexMatchHere ps cs

/-- Whether the pattern matches anywhere in the subject — the semantics of
the `{"$regex": q, "$options": "i"}` constraint on the modelled fragment. -/
def regexSearch (p : List Char) : List Char → Bool
  | [] => regexMatchHere p []
  | c :: cs => regexMatchHere p (c :: cs) || regexSearch p cs

/-- The `display_size` range constraint the list handler builds
(`{"$gte": ..., "$lte": ...}` with each bound independently optional). -/
structure DisplayRange where
  gte : Option ℚ
  lte : Option ℚ
deriving DecidableEq, Repr

/-- The filter dict the list handler builds: optional case-insensitive
regex on `name`, optional equality on `chip`, optional range on
`display_size`. -/
structure QueryFilter where
  name_regex : Option String
  chip : Option String
  display_size : Option DisplayRange
deriving DecidableEq, Repr

/-- Python truthiness of an optional string parameter (`if q:`): `None`
and the empty string are falsy. -/
def strTruthy : Option String → Bool
  | none => false
  | some s => s != ""

/-- The filter construction of `list_ipads` (main.py lines 97-110): `q` and
`chip` are added under truthiness, the `display_size` range is added when
either bound `is not None`. -/
def list_filter (q chip : Option String) (min_display max_display : Option ℚ) :
    QueryFilter :=
  QueryFilter.mk
    (if strTruthy q then q else none)
    (if strTruthy chip then chip else none)
    (if min_display.isSome || max_display.isSome then
      some (DisplayRange.mk min_display max_display)
    else none)

/-- Modelled from the spec: the store's evaluation of the filter the list
handler builds (storage gateway, not under src/) — `$regex`-with-`i` on
`name`, equality on `chip`, `$gte`/`$lte` on `display_size`; a missing
field, or a field outside the constraint's type, fails the constraint. -/
def docMatches (f : QueryFilter) (d : Doc) : Bool :=
  (match f.name_regex with
    | none => true
    | some q =>
      match List.lookup "name" d with
      | some (BVal.str s) => regexSearch q.data s.data
      | _ => false) &&
  (match f.chip with
    | none => true
    | some c =>
      match List.lookup "chip" d with
      | some (BVal.str s) => s == c
      | _ => false) &&
  (match f.display_size with
    | none => true
    | some rng =>
      match List.lookup "display_size" d with
      | some (BVal.num x) =>
        (match rng.gte with | none => true | some lo => decide (lo ≤ x)) &&
        (match rng.lte with | none => true | some hi => decide (x ≤ hi))
      | _ => false)

/-- Embedding of `list_ipads` (main.py lines 87-113).  `Query(ge=0)` validation (422 on a
negative bound) happens before the handler body; an unconfigured store is
500; otherwise the matching documents are returned serialized. -/
def list_ipads (db : Option (List Doc)) (q chip : Option String)
    (min_display max_display : Option ℚ) : Except ℕ (List Doc) :=
  if min_display.any (fun x => decide (x < 0)) ||
      max_display.any (fun x => decide (x < 0)) then
    Except.error 422
  else
    match db with
    | none => Except.error 500
    | some docs =>
      Except.ok
        ((docs.filter
          (docMatches (list_filter q chip min_display max_display))).map
          serialize_doc)

/-- Modelled from the spec: the device-record schema (`schemas.IPad`, not
under src/), with the §3 data-model fields. -/
structure IPad where
  name : String
  generation : String
  chip : String
  display_size : ℚ
  storage_options : List ℕ
  base_price : ℚ
  colors : List String
  supports_pencil : String
  cellular : Bool
  image_url : String
deriving DecidableEq, Repr

/-- The fixed demo fixture of `seed_ipads` (main.py lines 185-234). -/
def demo_ipads : List IPad :=
  [IPad.mk "iPad Pro 11" "M4 (2024)" "M4" 11.0 [256, 512, 1024] 999.0
    ["Silver", "Space Black"] "Apple Pencil Pro" true
    "https://store.storeimages.cdn-apple.com/4982/as-images.apple.com/is/ipad-pro-11-digitalmat-gallery-1-202404?wid=728&hei=666&fmt=png-alpha&.v=1712605559398",
  IPad.mk "iPad Air 13" "M2 (2024)" "M2" 13.0 [128, 256, 512] 799.0
    ["Blue", "Purple", "Starlight", "Space Gray"] "Apple Pencil Pro" true
    "https://store.storeimages.cdn-apple.com/4982/as-images.apple.com/is/ipad-air-13-digitalmat-gallery-1-202405?wid=728&hei=666&fmt=png-alpha&.v=1713836176004",
  IPad.mk "iPad (10th gen)" "A14 (2022)" "A14" 10.9 [64, 256] 349.0
    ["Blue", "Pink", "Yellow", "Silver"] "USB‑C Apple Pencil" true
    "https://store.storeimages.cdn-apple.com/4982/as-images.apple.com/is/ipad-10th-gen-hero-blue-wifi-select?wid=540&hei=540&fmt=jpeg&qlt=90&.v=1664481087749",
  IPad.mk "iPad mini" "A15 (2021)" "A15" 8.3 [64, 256] 499.0
    ["Space Gray", "Pink", "Purple", "Starlight"] "Apple Pencil (2nd gen)" true
    "https://store.storeimages.cdn-apple.com/4982/as-images.apple.com/is/ipad-mini-select-202109_GEO_US?wid=540&hei=540&fmt=jpeg&qlt=90&.v=1631751068000"]

/-- Embedding of `seed_ipads` (main.py lines 176-241).  The collection is modelled as
the list of its records; inserting (`create_document`, modelled from the
spec's storage gateway) appends.  If the collection already has records
nothing is inserted; otherwise the loop inserts the demo fixture counting
insertions. -/
def seed_ipads (db : Option (List IPad)) : Except ℕ (ℕ × List IPad) :=
  match db with
  | none => Except.error 500
  | some coll =>
    if coll.length > 0 then Except.ok (0, coll)
    else
      let r := demo_ipads.foldl (fun st item => (st.1 ++ [item], st.2 + 1)) (coll, 0)
      Except.ok (r.2, r.1)


/-! Fixture values used by concrete witnesses and counterexamples. -/

/-- The record of the spec's worked example A. -/
def exampleA : Doc :=
  [("chip", BVal.str "M4"), ("display_size", BVal.num 11),
   ("cellular", BVal.bool true), ("storage_options", BVal.numArr [256, 512, 1024])]

/-- The record of the spec's worked example B. -/
def exampleB : Doc :=
  [("chip", BVal.str "A14"), ("display_size", BVal.num 10.9),
   ("cellular", BVal.bool true), ("storage_options", BVal.numArr [64, 256])]

/-- A syntactically valid store identifier. -/
def vid : String := "0123456789abcdef01234567"

/-- A store whose `find_one` returns a minimal document for every id. -/
def find_fixture : ObjectId → Except Unit (Option Doc) :=
  fun o => Except.ok (some [("_id", BVal.oid o)])

/-- The compare response produced for `find_fixture` documents. -/
def r0 : CompareResponse :=
  CompareResponse.mk [("id", BVal.str vid)] [("id", BVal.str vid)] 2 2 "A"

/-- A store whose `find_one` raises on every call (store unavailable at
query time). -/
def find_down : ObjectId → Except Unit (Option Doc) := fun _ => Except.error ()

/-- A store whose `find_one` finds no document. -/
def find_missing : ObjectId → Except Unit (Option Doc) := fun _ => Except.ok none

/-- A sample stored identifier value. -/
def oid_ex : ObjectId := ObjectId.mk "deadbeefdeadbeefdeadbeef"

end IpadApi

namespace IpadApi

lemma score_eq (d : Doc) (c : String) (ds : ℚ) (n : ℕ)
    (hc : chipGet d = some c) (hd : displayGet d = some ds) (hs : storageGet d = some n) :
    score d = some (chip_score_get (py_upper c) + ds * 0.2 +
      (if truthy (List.lookup "cellular" d) then 1 else 0) * 0.3 + (n : ℚ) * 0.1) := by
  simp [score, hc, hd, hs]

lemma chip_default (k : String)
    (h : k ∉ (["M4", "M3", "M2", "M1", "A15", "A14"] : List String)) :
    chip_score_get k = 2 := by
  simp only [List.mem_cons, List.mem_singleton, not_or] at h
  obtain ⟨h1, h2, h3, h4, h5, h6, -⟩ := h
  simp [chip_score_get, h1, h2, h3, h4, h5, h6]

lemma score_congr (d₁ d₂ : Doc) (hc : chipGet d₁ = chipGet d₂)
    (hd : displayGet d₁ = displayGet d₂) (hs : storageGet d₁ = storageGet d₂)
    (hcell : truthy (List.lookup "cellular" d₁) = truthy (List.lookup "cellular" d₂)) :
    score d₁ = score d₂ := by
  unfold score
  rw [hc, hd, hs, hcell]

/-- Claim C1: for every fetched record the compare handler computes the score
as `chip_tier_score(chip) + display_size * 0.2 + (0.3 if cellular else 0) +
0.1 * count(storage_options)` with the tier table M4=5, M3=4.5, M2=4, M1=3.5,
A15=3, A14=2.5; the spec's worked examples score exactly 7.8 and 5.18. -/
theorem c1 :
    (∀ (d : Doc) (c : String) (ds : ℚ) (cell : Bool) (st : List ℚ),
      List.lookup "chip" d = some (BVal.str c) →
      List.lookup "display_size" d = some (BVal.num ds) →
      List.lookup "cellular" d = some (BVal.bool cell) →
      List.lookup "storage_options" d = some (BVal.numArr st) →
      score d = some (chip_score_get (py_upper c) + ds * 0.2 +
        (if cell then 1 else 0) * 0.3 + (st.length : ℚ) * 0.1)) ∧
    chip_score_get "M4" = 5 ∧ chip_score_get "M3" = 4.5 ∧ chip_score_get "M2" = 4 ∧
    chip_score_get "M1" = 3.5 ∧ chip_score_get "A15" = 3 ∧ chip_score_get "A14" = 2.5 ∧
    score exampleA = some 7.8 ∧ score exampleB = some 5.18 := by
  refine ⟨?_, rfl, rfl, rfl, rfl, rfl, rfl, ?_, ?_⟩
  · intro d c ds cell st hc hd hcell hst
    rw [score_eq d c ds st.length (by simp [chipGet, hc]) (by simp [displayGet, hd])
      (by simp [storageGet, hst])]
    simp [truthy, hcell]
  · rw [score_eq exampleA "M4" 11 3 rfl rfl rfl,
      show chip_score_get (py_upper "M4") = 5 from rfl,
      show truthy (List.lookup "cellular" exampleA) = true from rfl]
    norm_num
  · rw [score_eq exampleB "A14" 10.9 2 rfl rfl rfl,
      show chip_score_get (py_upper "A14") = 2.5 from rfl,
      show truthy (List.lookup "cellular" exampleB) = true from rfl]
    norm_num

/-- Witness for C1 at the spec's example record A. -/
theorem c1_witness :
    List.lookup "chip" exampleA = some (BVal.str "M4") ∧
    score exampleA = some (chip_score_get (py_upper "M4") + 11 * 0.2 +
      (if true then 1 else 0) * 0.3 + ((3 : ℕ) : ℚ) * 0.1) :=
  ⟨rfl, c1.1 exampleA "M4" 11 true [256, 512, 1024] rfl rfl rfl rfl⟩

lemma compare_ok_inv (f : ObjectId → Except Unit (Option Doc)) (pa pb : String)
    (r : CompareResponse) (h : compare_ipads (some f) pa pb = Except.ok r) :
    score r.a = some r.a_score ∧ score r.b = some r.b_score ∧
    r.recommended = recommendation r.a_score r.b_score := by
  unfold compare_ipads at h
  split at h
  · exact absurd h (by simp)
  · split at h
    · exact absurd h (by simp)
    · split at h
      · exact absurd h (by simp)
      · split at h
        · exact absurd h (by simp)
        · split at h
          · exact absurd h (by simp)
          · split at h
            · exact absurd h (by simp)
            · dsimp only at h
              split at h
              next a b a_score b_score hsa hsb =>
                rw [Except.ok.injEq] at h
                subst h
                exact ⟨hsa, hsb, rfl⟩
              next => exact absurd h (by simp)

/-- Claim C2: the compare handler recommends "A" exactly when
`score(a) >= score(b)` and "B" otherwise; the recommendation is a
deterministic function of the fetched records (witnessed by the functional
characterization of the handler's success payload), and two identical
records always yield "A". -/
theorem c2 :
    (∀ sa sb : ℚ, recommendation sa sb = "A" ↔ sa ≥ sb) ∧
    (∀ sa sb : ℚ, recommendation sa sb = "B" ↔ ¬ sa ≥ sb) ∧
    (∀ (f : ObjectId → Except Unit (Option Doc)) (pa pb : String) (r : CompareResponse),
      compare_ipads (some f) pa pb = Except.ok r →
      score r.a = some r.a_score ∧ score r.b = some r.b_score ∧
      r.recommended = recommendation r.a_score r.b_score ∧
      (r.a = r.b → r.recommended = "A")) := by
  refine ⟨?_, ?_, ?_⟩
  · intro sa sb
    by_cases hge : sa ≥ sb <;> simp [recommendation, hge]
  · intro sa sb
    by_cases hge : sa ≥ sb <;> simp [recommendation, hge]
  · intro f pa pb r h
    obtain ⟨hsa, hsb, hrec⟩ := compare_ok_inv f pa pb r h
    refine ⟨hsa, hsb, hrec, ?_⟩
    intro hab
    rw [hab] at hsa
    rw [hsb] at hsa
    rw [Option.some.injEq] at hsa
    rw [hrec, hsa]
    simp [recommendation]

/-- Witness for C2: concrete recommendations and a concrete successful
compare whose payload satisfies the functional characterization. -/
theorem c2_witness :
    recommendation 5 3 = "A" ∧ recommendation 3 5 = "B" ∧
    (score r0.a = some r0.a_score ∧ score r0.b = some r0.b_score ∧
      r0.recommended = recommendation r0.a_score r0.b_score ∧
      (r0.a = r0.b → r0.recommended = "A")) :=
  ⟨(c2.1 5 3).mpr (by norm_num), (c2.2.1 3 5).mpr (by norm_num),
    c2.2.2 find_fixture vid vid r0 (by with_unfolding_all rfl)⟩

/-- Counterexample to C4 as stated: with the store configured and both
identifiers well-formed, a store failure during the fetch is surfaced as
400 "Invalid id format", not as a 500-class store-unavailable response. -/
theorem c4_cex :
    parseObjectId vid = some (ObjectId.mk vid) ∧
    compare_ipads (some find_down) vid vid = Except.error (400, "Invalid id format") := by
  constructor
  · decide
  · rfl

/-- Claim C4 (amended): with no store configured compare responds 500; if at
least one identifier is malformed it responds 400 "Invalid id format"; when
the store responds normally, 400 happens exactly for a malformed identifier
and 404 exactly when both identifiers parse but a fetched record is missing
(or empty); a store failure during the fetch is caught by the handler's
broad `except` and surfaces as the same 400, not as a 500-class response. -/
theorem c4 : ∀ (find_one : ObjectId → Except Unit (Option Doc)) (pa pb : String),
    compare_ipads none pa pb = Except.error (500, "Database not configured") ∧
    (parseObjectId pa = none ∨ parseObjectId pb = none →
      compare_ipads (some find_one) pa pb = Except.error (400, "Invalid id format")) ∧
    ((∀ o, find_one o ≠ Except.error ()) →
      ((∃ m, compare_ipads (some find_one) pa pb = Except.error (400, m)) ↔
        (parseObjectId pa = none ∨ parseObjectId pb = none))) ∧
    (∀ oa ob ra rb, parseObjectId pa = some oa → parseObjectId pb = some ob →
      find_one oa = Except.ok ra → find_one ob = Except.ok rb →
      ((∃ m, compare_ipads (some find_one) pa pb = Except.error (404, m)) ↔
        (docTruthy ra = false ∨ docTruthy rb = false))) ∧
    (∀ oa, parseObjectId pa = some oa → find_one oa = Except.error () →
      compare_ipads (some find_one) pa pb = Except.error (400, "Invalid id format")) := by
  intro find_one pa pb
  refine ⟨rfl, ?_, ?_, ?_, ?_⟩
  · intro h
    rcases h with hpa | hpb
    · simp [compare_ipads, hpa]
    · cases hpa : parseObjectId pa with
      | none => simp [compare_ipads, hpa]
      | some oa =>
        cases hfa : find_one oa with
        | error e => simp [compare_ipads, hpa, hfa]
        | ok ra => simp [compare_ipads, hpa, hfa, hpb]
  · intro hstore
    constructor
    · intro ⟨m, hm⟩
      by_contra hno
      push_neg at hno
      obtain ⟨hpa, hpb⟩ := hno
      obtain ⟨oa, hoa⟩ := Option.ne_none_iff_exists'.mp hpa
      obtain ⟨ob, hob⟩ := Option.ne_none_iff_exists'.mp hpb
      cases hfa : find_one oa with
      | error e => exact hstore oa hfa
      | ok ra =>
        cases hfb : find_one ob with
        | error e => exact hstore ob hfb
        | ok rb =>
          rw [compare_ipads] at hm
          simp only [hoa, hfa, hob, hfb] at hm
          by_cases hc : (!docTruthy ra || !docTruthy rb) = true
          · rw [if_pos hc] at hm
            simp at hm
          · rw [if_neg hc] at hm
            rcases hsa : score (serialize_doc (ra.getD [])) with _ | sa <;>
              rcases hsb : score (serialize_doc (rb.getD [])) with _ | sb <;>
              rw [hsa, hsb] at hm <;> simp at hm
    · intro h
      exact ⟨"Invalid id format", by
        rcases h with hpa | hpb
        · simp [compare_ipads, hpa]
        · cases hpa : parseObjectId pa with
          | none => simp [compare_ipads, hpa]
          | some oa =>
            cases hfa : find_one oa with
            | error e => simp [compare_ipads, hpa, hfa]
            | ok ra => simp [compare_ipads, hpa, hfa, hpb]⟩
  · intro oa ob ra rb hpa hpb hfa hfb
    rw [compare_ipads]
    simp only [hpa, hfa, hpb, hfb]
    by_cases hc : (!docTruthy ra || !docTruthy rb) = true
    · rw [if_pos hc]
      simp only [Bool.or_eq_true, Bool.not_eq_true'] at hc
      simp [hc]
    · rw [if_neg hc]
      simp only [Bool.or_eq_true, Bool.not_eq_true'] at hc
      push_neg at hc
      constructor
      · intro ⟨m, hm⟩
        rcases hsa : score (serialize_doc (ra.getD [])) with _ | sa <;>
          rcases hsb : score (serialize_doc (rb.getD [])) with _ | sb <;>
          rw [hsa, hsb] at hm <;> simp at hm
      · intro h
        rcases h with h | h
        · exact absurd h (by simp [hc.1])
        · exact absurd h (by simp [hc.2])
  · intro oa hpa hfa
    simp [compare_ipads, hpa, hfa]

/-- Witness for C4 at concrete stores and identifiers. -/
theorem c4_witness :
    compare_ipads none "" "" = Except.error (500, "Database not configured") ∧
    compare_ipads (some find_fixture) "" "" = Except.error (400, "Invalid id format") ∧
    (∃ m, compare_ipads (some find_missing) vid vid = Except.error (404, m)) := by
  refine ⟨(c4 find_fixture "" "").1, (c4 find_fixture "" "").2.1 (Or.inl (by decide)), ?_⟩
  exact ((c4 find_missing vid vid).2.2.2.1 (ObjectId.mk vid) (ObjectId.mk vid) none none
    (by decide) (by decide) rfl rfl).mpr (Or.inl rfl)

lemma map_eq_of_forall2 {α β : Type} (f : α → β) {l₁ l₂ : List α}
    (h : List.Forall₂ (fun a b => f a = f b) l₁ l₂) : l₁.map f = l₂.map f := by
  induction h with
  | nil => rfl
  | cons hab _ ih => simp [hab, ih]

/-- Claim C3: the chip tier lookup is case-insensitive — changing only the
letter case of the chip field (characterwise equal uppercasings) leaves the
score unchanged — and any chip outside the six-entry table contributes
exactly the default tier 2 to the score. -/
theorem c3 :
    (∀ (d₁ d₂ : Doc) (c₁ c₂ : String),
      List.lookup "chip" d₁ = some (BVal.str c₁) →
      List.lookup "chip" d₂ = some (BVal.str c₂) →
      (∀ k, k ≠ "chip" → List.lookup k d₂ = List.lookup k d₁) →
      List.Forall₂ (fun a b => Char.toUpper a = Char.toUpper b) c₁.data c₂.data →
      score d₁ = score d₂) ∧
    (∀ s : String,
      py_upper s ∉ (["M4", "M3", "M2", "M1", "A15", "A14"] : List String) →
      chip_score_get (py_upper s) = 2) ∧
    (∀ (d : Doc) (s : String) (ds : ℚ) (n : ℕ),
      List.lookup "chip" d = some (BVal.str s) →
      py_upper s ∉ (["M4", "M3", "M2", "M1", "A15", "A14"] : List String) →
      displayGet d = some ds → storageGet d = some n →
      score d = some (2 + ds * 0.2 +
        (if truthy (List.lookup "cellular" d) then 1 else 0) * 0.3 + (n : ℚ) * 0.1)) := by
  refine ⟨?_, ?_, ?_⟩
  · intro d₁ d₂ c₁ c₂ h1 h2 hk hf
    have hup : py_upper c₁ = py_upper c₂ :=
      congrArg String.mk (map_eq_of_forall2 Char.toUpper hf)
    have hc1 : chipGet d₁ = some c₁ := by simp [chipGet, h1]
    have hc2 : chipGet d₂ = some c₂ := by simp [chipGet, h2]
    have hdisp : displayGet d₂ = displayGet d₁ := by
      simp [displayGet, hk "display_size" (by decide)]
    have hstor : storageGet d₂ = storageGet d₁ := by
      simp [storageGet, hk "storage_options" (by decide)]
    have hcell : List.lookup "cellular" d₂ = List.lookup "cellular" d₁ :=
      hk "cellular" (by decide)
    cases hd : displayGet d₁ with
    | none => simp [score, hc1, hc2, hdisp, hd]
    | some ds =>
      cases hs : storageGet d₁ with
      | none => simp [score, hc1, hc2, hdisp, hstor, hd, hs]
      | some n => simp [score, hc1, hc2, hdisp, hstor, hcell, hd, hs, hup]
  · intro s h
    exact chip_default (py_upper s) h
  · intro d s ds n hc hno hd hs
    rw [score_eq d s ds n (by simp [chipGet, hc]) hd hs, chip_default (py_upper s) hno]

/-- Witness for C3: chips "m4" and "M4" score equally; an unknown chip
scores with tier 2. -/
theorem c3_witness :
    score [("chip", BVal.str "m4")] = score [("chip", BVal.str "M4")] ∧
    score [("chip", BVal.str "X99"), ("display_size", BVal.num 10)] =
      some (2 + 10 * 0.2 +
        (if truthy (List.lookup "cellular"
          [("chip", BVal.str "X99"), ("display_size", BVal.num 10)]) then 1 else 0) * 0.3 +
        ((0 : ℕ) : ℚ) * 0.1) := by
  constructor
  · exact c3.1 [("chip", BVal.str "m4")] [("chip", BVal.str "M4")] "m4" "M4" rfl rfl
      (fun k hk => by
        have hb : (k == "chip") = false := by simp [hk]
        simp [List.lookup, hb])
      (by decide)
  · exact c3.2.2 [("chip", BVal.str "X99"), ("display_size", BVal.num 10)] "X99" 10 0
      rfl (by decide) rfl rfl

lemma regexMatchHere_eq (p : List Char) (hp : ∀ c ∈ p, c ≠ '.') :
    ∀ s : List Char,
      (regexMatchHere p s = true ↔ p.map Char.toLower <+: s.map Char.toLower) := by
  induction p with
  | nil => intro s; simp [regexMatchHere]
  | cons a ps ih =>
    intro s
    cases s with
    | nil => simp [regexMatchHere]
    | cons c cs =>
      have ha : (a == '.') = false := by simp [hp a (by simp)]
      have ihs := ih (fun x hx => hp x (List.mem_cons_of_mem _ hx)) cs
      simp [regexMatchHere, regexCharMatch, ha, List.cons_prefix_cons, ihs]

lemma regexSearch_eq (p : List Char) (hp : ∀ c ∈ p, c ≠ '.') :
    ∀ s : List Char,
      (regexSearch p s = true ↔ p.map Char.toLower <:+: s.map Char.toLower) := by
  intro s
  induction s with
  | nil => simp [regexSearch, regexMatchHere_eq p hp [], List.infix_nil]
  | cons c cs ih =>
    rw [regexSearch]
    simp [Bool.or_eq_true, regexMatchHere_eq p hp (c :: cs), ih, List.infix_cons_iff]

/-- Claim C5 (amended): the name constraint passes `q` to the store as a
case-insensitive regular-expression pattern, not as a literal; on patterns
containing no regex metacharacters this coincides with case-insensitive
literal substring occurrence in the name field. -/
theorem c5 : ∀ (q nm : String), q ≠ "" →
    (∀ c ∈ q.data, c ∉ (['.', '*', '+', '?', '\x7b', '\x7d', '[', ']', '(', ')',
      '|', '^', '$', '\\'] : List Char)) →
    (docMatches (list_filter (some q) none none none) [("name", BVal.str nm)] = true ↔
      q.data.map Char.toLower <:+: nm.data.map Char.toLower) := by
  intro q nm hq hmeta
  have hdot : ∀ c ∈ q.data, c ≠ '.' := by
    intro c hc
    have h := hmeta c hc
    simp only [List.mem_cons, not_or] at h
    exact h.1
  have ht : strTruthy (some q) = true := by simp [strTruthy, hq]
  simp only [docMatches, list_filter, ht, if_pos, List.lookup, Option.isSome_none,
    Bool.or_self, Bool.false_eq_true, if_false]
  simp [regexSearch_eq q.data hdot nm.data]

/-- Witness for C5: a metacharacter-free query matches as a substring. -/
theorem c5_witness :
    docMatches (list_filter (some "pro") none none none)
      [("name", BVal.str "iPad PRO 11")] = true :=
  (c5 "pro" "iPad PRO 11" (by decide) (by decide)).mpr (by decide)

/-- Counterexample to C5 as stated: the query "." matches the name "a"
even though "." does not occur in it as a literal substring. -/
theorem c5_cex :
    docMatches (list_filter (some ".") none none none) [("name", BVal.str "a")] = true ∧
    ¬ (String.data "." |>.map Char.toLower) <:+: (String.data "a" |>.map Char.toLower) := by
  constructor
  · rfl
  · decide

lemma docMatches_inverted (q chip : Option String) (X Y : ℚ) (hXY : Y < X) (d : Doc) :
    docMatches (list_filter q chip (some X) (some Y)) d = false := by
  have hrange : (list_filter q chip (some X) (some Y)).display_size =
      some (DisplayRange.mk (some X) (some Y)) := by
    simp [list_filter]
  unfold docMatches
  rw [hrange]
  cases hl : List.lookup "display_size" d with
  | none => simp
  | some v =>
    cases v with
    | num x =>
      by_cases hx : X ≤ x
      · have : ¬ x ≤ Y := by linarith
        simp [this]
      · simp [hx]
    | oid o => simp
    | str s => simp
    | bool b => simp
    | numArr l => simp
    | strArr l => simp

/-- Claim C6: absent list parameters add no constraint to the filter (each
absent parameter leaves its constraint empty, and the empty filter matches
every document); when nothing matches the list endpoint returns the empty
sequence without error; an inverted range `min_display=X, max_display=Y`
with `X>Y` is accepted and yields the empty sequence. -/
theorem c6 :
    (list_filter none none none none = QueryFilter.mk none none none) ∧
    (∀ d : Doc, docMatches (QueryFilter.mk none none none) d = true) ∧
    (∀ (chip : Option String) (mi ma : Option ℚ),
      (list_filter none chip mi ma).name_regex = none) ∧
    (∀ (q : Option String) (mi ma : Option ℚ), (list_filter q none mi ma).chip = none) ∧
    (∀ q chip : Option String, (list_filter q chip none none).display_size = none) ∧
    (∀ (docs : List Doc) (q chip : Option String) (mi ma : Option ℚ),
      (∀ x, mi = some x → 0 ≤ x) → (∀ x, ma = some x → 0 ≤ x) →
      (∀ d ∈ docs, docMatches (list_filter q chip mi ma) d = false) →
      list_ipads (some docs) q chip mi ma = Except.ok []) ∧
    (∀ (docs : List Doc) (q chip : Option String) (X Y : ℚ),
      0 ≤ Y → Y < X →
      list_ipads (some docs) q chip (some X) (some Y) = Except.ok []) := by
  refine ⟨rfl, ?_, ?_, ?_, ?_, ?_, ?_⟩
  · intro d
    simp [docMatches]
  · intro chip mi ma
    simp [list_filter, strTruthy]
  · intro q mi ma
    simp [list_filter, strTruthy]
  · intro q chip
    simp [list_filter]
  · intro docs q chip mi ma hmi hma hall
    have hvmi : mi.any (fun x => decide (x < 0)) = false := by
      cases mi with
      | none => rfl
      | some x => simp [not_lt.mpr (hmi x rfl)]
    have hvma : ma.any (fun x => decide (x < 0)) = false := by
      cases ma with
      | none => rfl
      | some x => simp [not_lt.mpr (hma x rfl)]
    unfold list_ipads
    rw [hvmi, hvma]
    simp only [Bool.or_self, Bool.false_eq_true, if_false]
    rw [List.filter_eq_nil_iff.mpr (by simpa using hall)]
    rfl
  · intro docs q chip X Y hY hXY
    have hvmi : (some X).any (fun x => decide (x < 0)) = false := by
      simp [not_lt.mpr (le_trans hY (le_of_lt hXY))]
    have hvma : (some Y).any (fun x => decide (x < 0)) = false := by
      simp [not_lt.mpr hY]
    unfold list_ipads
    rw [hvmi, hvma]
    simp only [Bool.or_self, Bool.false_eq_true, if_false]
    rw [List.filter_eq_nil_iff.mpr
      (fun d _ => by simp [docMatches_inverted q chip X Y hXY d])]
    rfl

/-- Witness for C6: a non-matching query and an inverted range both yield
the empty sequence. -/
theorem c6_witness :
    list_ipads (some [[("name", BVal.str "iPad")]]) (some "zz") none none none =
      Except.ok [] ∧
    list_ipads (some [[("display_size", BVal.num 11)]]) none none
      (some 13) (some 9) = Except.ok [] := by
  constructor
  · exact c6.2.2.2.2.2.1 [[("name", BVal.str "iPad")]] (some "zz") none none none
      (fun x hx => by simp at hx) (fun x hx => by simp at hx) (by decide)
  · exact c6.2.2.2.2.2.2 [[("display_size", BVal.num 11)]] none none 13 9
      (by norm_num) (by norm_num)

/-- Claim C7: seeding a collection that already has at least one record
inserts nothing and reports 0; seeding an empty collection inserts exactly
the four fixed demo records and reports 4. -/
theorem c7 : ∀ coll : List IPad,
    (coll.length > 0 → seed_ipads (some coll) = Except.ok (0, coll)) ∧
    (coll = [] → seed_ipads (some coll) = Except.ok (4, demo_ipads)) ∧
    demo_ipads.length = 4 := by
  intro coll
  refine ⟨?_, ?_, rfl⟩
  · intro h
    simp [seed_ipads, h]
  · intro h
    subst h
    rfl

/-- Witness for C7: seeding the empty collection, then a populated one. -/
theorem c7_witness :
    seed_ipads (some []) = Except.ok (4, demo_ipads) ∧
    seed_ipads (some demo_ipads) = Except.ok (0, demo_ipads) :=
  ⟨(c7 []).2.1 rfl, (c7 demo_ipads).1 (by decide)⟩

/-- Claim C9: at the list endpoint an empty-string `q` or `chip` is treated
exactly like an absent parameter (truthiness test), whereas `min_display=0`
or `max_display=0` does add the corresponding bound (non-nullness test),
observably so: a document without a `display_size` field matches the empty
filter but not the filter built from a zero bound. -/
theorem c9 :
    (∀ (chip : Option String) (mi ma : Option ℚ),
      list_filter (some "") chip mi ma = list_filter none chip mi ma) ∧
    (∀ (q : Option String) (mi ma : Option ℚ),
      list_filter q (some "") mi ma = list_filter q none mi ma) ∧
    (list_filter none none (some 0) none).display_size =
      some (DisplayRange.mk (some 0) none) ∧
    (list_filter none none none (some 0)).display_size =
      some (DisplayRange.mk none (some 0)) ∧
    docMatches (list_filter none none (some 0) none) [("name", BVal.str "x")] = false ∧
    docMatches (list_filter none none none (some 0)) [("name", BVal.str "x")] = false ∧
    docMatches (list_filter none none none none) [("name", BVal.str "x")] = true := by
  refine ⟨?_, ?_, rfl, rfl, rfl, rfl, rfl⟩
  · intro chip mi ma
    simp [list_filter, strTruthy]
  · intro q mi ma
    simp [list_filter, strTruthy]

lemma lookup_map_stringify (d : Doc) (k : String) :
    List.lookup k (d.map (fun kv => (kv.1, stringifyOid kv.2))) =
      (List.lookup k d).map stringifyOid := by
  induction d with
  | nil => rfl
  | cons kv rest ih =>
    obtain ⟨k', v⟩ := kv
    cases hk : (k == k') <;> simp [List.lookup, hk, ih]

lemma lookup_append (l₁ l₂ : Doc) (k : String) :
    List.lookup k (l₁ ++ l₂) =
      match List.lookup k l₁ with
      | some v => some v
      | none => List.lookup k l₂ := by
  induction l₁ with
  | nil => simp [List.lookup]
  | cons kv rest ih =>
    obtain ⟨k', v⟩ := kv
    cases hk : (k == k') <;> simp [List.lookup, hk, ih]

lemma lookup_erase_ne (d : Doc) (k k' : String) (h : k ≠ k') :
    List.lookup k (dictErase d k') = List.lookup k d := by
  induction d with
  | nil => rfl
  | cons kv rest ih =>
    obtain ⟨k'', v⟩ := kv
    by_cases hk : k == k''
    · have hkk : k = k'' := by simpa using hk
      subst hkk
      have : (k != k') = true := by simp [h]
      simp [dictErase, List.lookup, this]
    · cases hkk : (k'' != k')
      · have hkeq : k'' = k' := by simpa using hkk
        simp only [dictErase, List.filter] at ih ⊢
        simp [hkk, List.lookup, hk, ih]
      · simp only [dictErase, List.filter] at ih ⊢
        simp [hkk, List.lookup, hk, ih]

lemma lookup_erase_self (d : Doc) (k : String) :
    List.lookup k (dictErase d k) = none := by
  induction d with
  | nil => rfl
  | cons kv rest ih =>
    obtain ⟨k', v⟩ := kv
    by_cases hk : k' = k
    · subst hk
      simp only [dictErase, List.filter] at ih ⊢
      simp [List.lookup, ih]
    · have h1 : (k' != k) = true := by simp [hk]
      have h2 : (k == k') = false := by simp [Ne.symm hk]
      simp only [dictErase, List.filter] at ih ⊢
      simp [h1, List.lookup, h2, ih]

/-- Claim C8: serializing a stored document replaces the native `_id` by a
string field `id` holding its string form (no `_id` key remains and the
`id` value is non-empty), stringifies every other identifier-typed value,
and leaves every other field's value unchanged. -/
theorem c8 : ∀ (doc : Doc) (o : ObjectId),
    List.lookup "_id" doc = some (BVal.oid o) →
    List.lookup "id" doc = none →
    o.hex ≠ "" →
    List.lookup "_id" (serialize_doc doc) = none ∧
    List.lookup "id" (serialize_doc doc) = some (BVal.str o.hex) ∧
    BVal.str o.hex ≠ BVal.str "" ∧
    (∀ k, k ≠ "_id" → k ≠ "id" →
      List.lookup k (serialize_doc doc) = (List.lookup k doc).map stringifyOid) := by
  intro doc o hid hnoid hhex
  have hne : List.isEmpty doc = false := by
    cases doc with
    | nil => simp [List.lookup] at hid
    | cons kv rest => rfl
  have hset : dictSet (dictErase doc "_id") "id" (BVal.str (bstr (BVal.oid o))) =
      dictErase doc "_id" ++ [("id", BVal.str o.hex)] := by
    unfold dictSet
    rw [lookup_erase_ne doc "id" "_id" (by decide), hnoid]
    simp [bstr]
  have hser : serialize_doc doc =
      (dictErase doc "_id" ++ [("id", BVal.str o.hex)]).map
        (fun kv => (kv.1, stringifyOid kv.2)) := by
    unfold serialize_doc
    simp only [hne, Bool.false_eq_true, if_false, hid, hset]
  refine ⟨?_, ?_, by simp [hhex], ?_⟩
  · rw [hser, lookup_map_stringify, lookup_append, lookup_erase_self]
    simp [List.lookup]
  · rw [hser, lookup_map_stringify, lookup_append,
      lookup_erase_ne doc "id" "_id" (by decide), hnoid]
    simp [List.lookup, stringifyOid]
  · intro k hk1 hk2
    rw [hser, lookup_map_stringify, lookup_append, lookup_erase_ne doc k "_id" hk1]
    cases hlk : List.lookup k doc with
    | some v => simp
    | none =>
      have : (k == "id") = false := by simp [hk2]
      simp [List.lookup, this]

/-- Witness for C8 at a concrete stored document with a nested identifier. -/
theorem c8_witness :
    List.lookup "_id" (serialize_doc
      [("_id", BVal.oid oid_ex), ("name", BVal.str "iPad"),
       ("parent", BVal.oid (ObjectId.mk "cafecafecafecafecafecafe"))]) = none ∧
    List.lookup "id" (serialize_doc
      [("_id", BVal.oid oid_ex), ("name", BVal.str "iPad"),
       ("parent", BVal.oid (ObjectId.mk "cafecafecafecafecafecafe"))]) =
      some (BVal.str "deadbeefdeadbeefdeadbeef") ∧
    List.lookup "parent" (serialize_doc
      [("_id", BVal.oid oid_ex), ("name", BVal.str "iPad"),
       ("parent", BVal.oid (ObjectId.mk "cafecafecafecafecafecafe"))]) =
      (List.lookup "parent"
        [("_id", BVal.oid oid_ex), ("name", BVal.str "iPad"),
         ("parent", BVal.oid (ObjectId.mk "cafecafecafecafecafecafe"))]).map stringifyOid := by
  have h := c8 [("_id", BVal.oid oid_ex), ("name", BVal.str "iPad"),
    ("parent", BVal.oid (ObjectId.mk "cafecafecafecafecafecafe"))] oid_ex rfl rfl (by decide)
  exact ⟨h.1, h.2.1, h.2.2.2 "parent" (by decide) (by decide)⟩

/-- Claim C10: the scoring function is total on records with missing
attributes — a missing chip is treated as `""` (hence default tier),
a missing display size as 0, a missing cellular flag as falsy, and missing
storage options as the empty list — so a score is produced without error. -/
theorem c10 : ∀ d : Doc,
    (List.lookup "chip" d = none ∨ ∃ s, List.lookup "chip" d = some (BVal.str s)) →
    (List.lookup "display_size" d = none ∨
      ∃ x, List.lookup "display_size" d = some (BVal.num x)) →
    (List.lookup "storage_options" d = none ∨
      (∃ l, List.lookup "storage_options" d = some (BVal.numArr l)) ∨
      (∃ l, List.lookup "storage_options" d = some (BVal.strArr l)) ∨
      (∃ s, List.lookup "storage_options" d = some (BVal.str s))) →
    (score d).isSome = true ∧
    (List.lookup "chip" d = none → score (("chip", BVal.str "") :: d) = score d) ∧
    (List.lookup "display_size" d = none →
      score (("display_size", BVal.num 0) :: d) = score d) ∧
    (List.lookup "cellular" d = none →
      score (("cellular", BVal.bool false) :: d) = score d) ∧
    (List.lookup "storage_options" d = none →
      score (("storage_options", BVal.numArr []) :: d) = score d) := by
  intro d h1 h2 h3
  have hc : ∃ c, chipGet d = some c := by
    rcases h1 with h | ⟨s, h⟩
    · exact ⟨"", by simp [chipGet, h]⟩
    · exact ⟨s, by simp [chipGet, h]⟩
  have hd : ∃ x, displayGet d = some x := by
    rcases h2 with h | ⟨x, h⟩
    · exact ⟨0, by simp [displayGet, h]⟩
    · exact ⟨x, by simp [displayGet, h]⟩
  have hs : ∃ n, storageGet d = some n := by
    rcases h3 with h | ⟨l, h⟩ | ⟨l, h⟩ | ⟨s, h⟩
    · exact ⟨0, by simp [storageGet, h]⟩
    · exact ⟨l.length, by simp [storageGet, h]⟩
    · exact ⟨l.length, by simp [storageGet, h]⟩
    · exact ⟨s.length, by simp [storageGet, h]⟩
  obtain ⟨c, hc⟩ := hc
  obtain ⟨x, hd⟩ := hd
  obtain ⟨n, hs⟩ := hs
  refine ⟨by simp [score, hc, hd, hs], ?_, ?_, ?_, ?_⟩
  · intro h
    apply score_congr
    · simp [chipGet, List.lookup, h]
    · simp [displayGet, List.lookup]
    · simp [storageGet, List.lookup]
    · simp [List.lookup]
  · intro h
    apply score_congr
    · simp [chipGet, List.lookup]
    · simp [displayGet, List.lookup, h]
    · simp [storageGet, List.lookup]
    · simp [List.lookup]
  · intro h
    apply score_congr
    · simp [chipGet, List.lookup]
    · simp [displayGet, List.lookup]
    · simp [storageGet, List.lookup]
    · simp [List.lookup, h, truthy]
  · intro h
    apply score_congr
    · simp [chipGet, List.lookup]
    · simp [displayGet, List.lookup]
    · simp [storageGet, List.lookup, h]
    · simp [List.lookup]

/-- Witness for C10 at the empty record. -/
theorem c10_witness :
    (score ([] : Doc)).isSome = true ∧
    score [("chip", BVal.str "")] = score ([] : Doc) := by
  have h := c10 [] (Or.inl rfl) (Or.inl rfl) (Or.inl rfl)
  exact ⟨h.1, h.2.1 rfl⟩

end IpadApi
